import Mathlib

/-!
Shallow embedding of the torchnf model classes (`src/torchnf/models.py` and
`src/torchnf/lit_models.py`) and of the spec's Metropolis resampler.

Tensors are modelled as lists of rationals; all tensor arithmetic in the
source is elementwise, so a batch operation is a `List.map` / `List.zipWith`
over the batch.  Log-densities and log-det-Jacobians are exact rationals
(the embedding idealises floating-point arithmetic as exact arithmetic).
Randomness is externalised: a sampler consumes an explicit stream
`ρ : ℕ → ℚ` of draws together with an offset, mirroring the i.i.d. draws
`prior.sample([batch_size])` performs in the source.
-/

/-- A normalizing flow (`DensityTransform` in `torchnf.abc`): an invertible
map together with its log-det-Jacobian, in both directions, applied
elementwise to a batch.  `fwd t` returns `(y, log_det_jacob)` and `inv`
is the inverse pass. -/
structure DensityTransform where
  fwd : ℚ → ℚ × ℚ
  inv : ℚ → ℚ × ℚ

/-- The prior distribution (`torch.distributions.Distribution`): only its
`log_prob` enters the computations under verification; sampling is
modelled by reading an explicit stream of draws. -/
structure Distribution where
  logProb : ℚ → ℚ

/-- The target distribution (`torchnf.abc.TargetDistribution`): exposes
`log_prob`, possibly unnormalised. -/
structure TargetDistribution where
  logProb : ℚ → ℚ

/-- Embeds `prior.sample([batch_size])` at stream offset `off`: the next
`batch_size` draws of the stream `ρ`. -/
def priorSample (ρ : ℕ → ℚ) (off batch_size : ℕ) : List ℚ :=
  (List.range batch_size).map fun i => ρ (off + i)

/-- Embeds `BijectiveAutoEncoder.__init__`: a flow, a prior, and the
`forward_is_encode` switch choosing which direction of the flow encodes. -/
structure BijectiveAutoEncoder where
  flow : DensityTransform
  prior : Distribution
  forward_is_encode : Bool

/-- The `_encode` callable selected in `BijectiveAutoEncoder.__init__`:
`flow_forward` when `forward_is_encode`, else `flow_inverse`. -/
def BijectiveAutoEncoder.encodeFn (m : BijectiveAutoEncoder) : ℚ → ℚ × ℚ :=
  if m.forward_is_encode then m.flow.fwd else m.flow.inv

/-- The `_decode` callable selected in `BijectiveAutoEncoder.__init__`:
`flow_inverse` when `forward_is_encode`, else `flow_forward`. -/
def BijectiveAutoEncoder.decodeFn (m : BijectiveAutoEncoder) : ℚ → ℚ × ℚ :=
  if m.forward_is_encode then m.flow.inv else m.flow.fwd

/-- Embeds `BijectiveAutoEncoder.encode`: `z, log_det_jacob = self._encode(x)`;
`log_prob_z = self.prior.log_prob(z)`; returns
`(z, log_prob_z + log_det_jacob)`. -/
def BijectiveAutoEncoder.encode (m : BijectiveAutoEncoder) (x : List ℚ) :
    List ℚ × List ℚ :=
  let z := x.map fun t => (m.encodeFn t).1
  let log_det_jacob := x.map fun t => (m.encodeFn t).2
  let log_prob_z := z.map m.prior.logProb
  (z, List.zipWith (fun a b => a + b) log_prob_z log_det_jacob)

/-- Embeds `BijectiveAutoEncoder.decode`: `log_prob_z = self.prior.log_prob(z)`;
`x, log_det_jacob = self._decode(z)`; returns
`(x, log_prob_z - log_det_jacob)`. -/
def BijectiveAutoEncoder.decode (m : BijectiveAutoEncoder) (z : List ℚ) :
    List ℚ × List ℚ :=
  let log_prob_z := z.map m.prior.logProb
  let x := z.map fun t => (m.decodeFn t).1
  let log_det_jacob := z.map fun t => (m.decodeFn t).2
  (x, List.zipWith (fun a b => a - b) log_prob_z log_det_jacob)

/-- Embeds `BijectiveAutoEncoder.sample(batch_size, batches)`: draws one batch
`z = self.prior.sample([batch_size])`, decodes it, returns the states only.
The `batches` argument is accepted but never used by the source. -/
def BijectiveAutoEncoder.sample (m : BijectiveAutoEncoder) (ρ : ℕ → ℚ)
    (batch_size : ℕ) (batches : ℕ) : List ℚ :=
  let z := priorSample ρ 0 batch_size
  z.map fun t => (m.decodeFn t).1

/-- Embeds `BoltzmannGenerator.__init__`: flow, prior and target; the superclass
is initialised with `forward_is_encode=False`. -/
structure BoltzmannGenerator where
  flow : DensityTransform
  prior : Distribution
  target : TargetDistribution

/-- The `BijectiveAutoEncoder` state a `BoltzmannGenerator` carries:
`super().__init__(flow, prior, forward_is_encode=False)`. -/
def BoltzmannGenerator.toAutoEncoder (g : BoltzmannGenerator) :
    BijectiveAutoEncoder :=
  ⟨g.flow, g.prior, false⟩

/-- Embeds `BoltzmannGenerator.forward`: `x, log_prob_x = self.decode(z)`;
`log_prob_target = self.target.log_prob(x)`; returns
`(x, log_prob_target - log_prob_x)`. -/
def BoltzmannGenerator.forward (g : BoltzmannGenerator) (z : List ℚ) :
    List ℚ × List ℚ :=
  let p := g.toAutoEncoder.decode z
  let log_prob_target := p.1.map g.target.logProb
  (p.1, List.zipWith (fun a b => a - b) log_prob_target p.2)

/-- Embeds `Tensor.mean()` over a batch. -/
def listMean (l : List ℚ) : ℚ := l.sum / l.length

/-- Embeds `BoltzmannGenerator.training_step_rev_kl`:
`x, log_stat_weight = self(z); loss = log_stat_weight.mean().neg()`. -/
def BoltzmannGenerator.training_step_rev_kl (g : BoltzmannGenerator)
    (z : List ℚ) : ℚ :=
  -(listMean (g.forward z).2)

/-- Embeds `BoltzmannGenerator.training_step`: calls `training_step_rev_kl`
on the batch. -/
def BoltzmannGenerator.training_step (g : BoltzmannGenerator)
    (z : List ℚ) (_batch_idx : ℕ) : ℚ :=
  g.training_step_rev_kl z

/-- Embeds `torchnf.utils.tuple_concat` restricted to the pair-of-tensors shape
used by `weighted_sample`: concatenate the state tensors and the
log-weight tensors of all batches along the leading dimension. -/
def tuple_concat (out : List (List ℚ × List ℚ)) : List ℚ × List ℚ :=
  ((out.map Prod.fst).flatten, (out.map Prod.snd).flatten)

/-- Embeds `BoltzmannGenerator.weighted_sample(batch_size, batches)`: for each of
`batches` iterations, draw `z = self.prior.sample([batch_size])` (fresh
draws: batch `k` reads the stream at offset `k * batch_size`), apply
`self(z)`, and return `tuple_concat` of all the results. -/
def BoltzmannGenerator.weighted_sample (g : BoltzmannGenerator) (ρ : ℕ → ℚ)
    (batch_size batches : ℕ) : List ℚ × List ℚ :=
  tuple_concat <| (List.range batches).map fun k =>
    g.forward (priorSample ρ (k * batch_size) batch_size)

/-- Elementwise fusion of `zipWith` over two maps of the same list. -/
theorem zipWith_map_same {α β γ δ : Type} (f : β → γ → δ) (g : α → β)
    (h : α → γ) (l : List α) :
    List.zipWith f (l.map g) (l.map h) = l.map fun x => f (g x) (h x) := by
  induction l with
  | nil => rfl
  | cons a l ih => simp [ih]

/-- Characterisation of `BoltzmannGenerator.forward` as an elementwise map
over the latent batch (shared helper). -/
theorem boltzmann_forward_eq_map (g : BoltzmannGenerator) (z : List ℚ) :
    g.forward z =
      (z.map fun t => (g.flow.fwd t).1,
       z.map fun t =>
         g.target.logProb (g.flow.fwd t).1 - g.prior.logProb t
           + (g.flow.fwd t).2) := by
  unfold BoltzmannGenerator.forward BijectiveAutoEncoder.decode
  simp only [BoltzmannGenerator.toAutoEncoder, BijectiveAutoEncoder.decodeFn,
    Bool.false_eq_true, if_false, zipWith_map_same, List.map_map]
  refine Prod.ext rfl ?_
  simp only [Function.comp_def, zipWith_map_same]
  exact List.map_congr_left fun t _ => by ring

/-- C1: `BoltzmannGenerator.forward(z)` returns the flow-forward image of
`z` together with log-weights
`target.log_prob(x) - prior.log_prob(z) + log_det_jacob`, elementwise
(the source computes `target - (prior - log_det_jacob)`, which is the same
value in the exact arithmetic of this embedding). -/
theorem c1_boltzmann_forward_importance_weight (g : BoltzmannGenerator)
    (z : List ℚ) :
    g.forward z =
      (z.map fun t => (g.flow.fwd t).1,
       z.map fun t =>
         g.target.logProb (g.flow.fwd t).1 - g.prior.logProb t
           + (g.flow.fwd t).2) :=
  boltzmann_forward_eq_map g z

/-- C2: `BoltzmannGenerator.training_step(batch, batch_idx)` dispatches to
`training_step_rev_kl(batch)`, whose value is the negated mean of the
log statistical weights of one `forward(batch)` pass. -/
theorem c2_training_step_dispatch_rev_kl (g : BoltzmannGenerator)
    (z : List ℚ) (batch_idx : ℕ) :
    g.training_step z batch_idx = g.training_step_rev_kl z ∧
    g.training_step z batch_idx = -(listMean (g.forward z).2) := by
  exact ⟨rfl, rfl⟩

/-- The two output tensors of `BoltzmannGenerator.forward` have the same
leading dimension as the latent batch. -/
theorem boltzmann_forward_lengths (g : BoltzmannGenerator) (z : List ℚ) :
    (g.forward z).1.length = z.length ∧ (g.forward z).2.length = z.length := by
  rw [boltzmann_forward_eq_map]
  simp

/-- C4: `weighted_sample(batch_size, batches)` returns the in-order
concatenation of `batches` forward passes, each on `batch_size` fresh prior
draws, and the leading dimension of both returned tensors is
`batches * batch_size`. -/
theorem c4_weighted_sample_concatenation (g : BoltzmannGenerator)
    (ρ : ℕ → ℚ) (batch_size batches : ℕ)
    (hbs : 0 < batch_size) (hb : 0 < batches) :
    g.weighted_sample ρ batch_size batches =
      tuple_concat ((List.range batches).map fun k =>
        g.forward (priorSample ρ (k * batch_size) batch_size)) ∧
    (g.weighted_sample ρ batch_size batches).1.length
        = batches * batch_size ∧
    (g.weighted_sample ρ batch_size batches).2.length
        = batches * batch_size := by
  refine ⟨rfl, ?_, ?_⟩ <;>
  · unfold BoltzmannGenerator.weighted_sample tuple_concat
    simp only [List.length_flatten, List.map_map, Function.comp_def]
    have hlen : ∀ k : ℕ,
        (g.forward (priorSample ρ (k * batch_size) batch_size)).1.length
          = batch_size ∧
        (g.forward (priorSample ρ (k * batch_size) batch_size)).2.length
          = batch_size := by
      intro k
      have h := boltzmann_forward_lengths g
        (priorSample ρ (k * batch_size) batch_size)
      simpa [priorSample] using h
    simp only [fun k => (hlen k).1, fun k => (hlen k).2]
    simp [List.sum_replicate, Nat.smul_one_eq_cast, List.map_const]

/-- Concrete flow used by witnesses: shift by one, constant
log-det-Jacobian `1`. -/
def flowEx : DensityTransform :=
  ⟨fun t => (t + 1, 1), fun t => (t - 1, -1)⟩

/-- Concrete prior used by witnesses. -/
def priorEx : Distribution := ⟨fun t => -t⟩

/-- Concrete target used by witnesses. -/
def targetEx : TargetDistribution := ⟨fun t => 2 * t⟩

/-- Concrete Boltzmann generator used by witnesses. -/
def genEx : BoltzmannGenerator := ⟨flowEx, priorEx, targetEx⟩

/-- Concrete prior-draw stream used by witnesses. -/
def streamEx : ℕ → ℚ := fun i => i

/-- Witness for C4: the theorem applied at `batch_size = 2`, `batches = 2`
on a concrete generator and stream. -/
theorem c4_weighted_sample_concatenation_witness :
    genEx.weighted_sample streamEx 2 2 =
      tuple_concat ((List.range 2).map fun k =>
        genEx.forward (priorSample streamEx (k * 2) 2)) ∧
    (genEx.weighted_sample streamEx 2 2).1.length = 2 * 2 ∧
    (genEx.weighted_sample streamEx 2 2).2.length = 2 * 2 :=
  c4_weighted_sample_concatenation genEx streamEx 2 2 (by decide) (by decide)

/-- The `eval_mode` decorator (`models.py`): the wrapper records
`original_state = model.training`, calls `model.eval()` (training flag
`false`), runs the wrapped method, then calls `model.train(original_state)`
and returns the result.  The wrapped method is a state transformer on the
training flag that either returns a value or raises; the restore line runs
only after a normal return, since the source has no try/finally. -/
def eval_mode {ε α : Type} (meth : Bool → Except ε α × Bool) :
    Bool → Except ε α × Bool :=
  fun training =>
    let original_state := training
    let r := meth false
    match r.1 with
    | Except.ok out => (Except.ok out, original_state)
    | Except.error e => (Except.error e, r.2)

/-- A wrapped method that raises immediately, leaving the module in the
eval mode the wrapper set. -/
def raisingMeth : Bool → Except Unit Unit × Bool :=
  fun _ => (Except.error (), false)

/-- Counterexample to C5: starting in training mode (`true`), calling the
`eval_mode`-wrapped raising method propagates the exception and leaves the
module in eval mode (`false`): the prior mode is not restored. -/
theorem c5_eval_mode_no_restore_on_raise :
    (eval_mode raisingMeth true).1 = Except.error () ∧
    (eval_mode raisingMeth true).2 ≠ true := by
  exact ⟨rfl, by decide⟩

/-- C5 (amended): the `eval_mode` wrapper runs the wrapped method with the
module in evaluation mode, and restores the original training/eval mode
when the method returns normally; when the method raises, the exception
propagates and the module is left in whatever mode the method left it
(eval mode unless the method itself changed it). -/
theorem c5_eval_mode_scoped_restore {ε α : Type}
    (meth : Bool → Except ε α × Bool) (training : Bool) :
    (eval_mode meth training).1 = (meth false).1 ∧
    (∀ out, (meth false).1 = Except.ok out →
      eval_mode meth training = (Except.ok out, training)) ∧
    (∀ e, (meth false).1 = Except.error e →
      eval_mode meth training = (Except.error e, (meth false).2)) := by
  unfold eval_mode
  cases h : (meth false).1 with
  | ok out => refine ⟨by simp [h], ?_, ?_⟩ <;> intro v hv <;> simp [h] at hv ⊢ <;> simp [hv]
  | error e => refine ⟨by simp [h], ?_, ?_⟩ <;> intro v hv <;> simp [h] at hv ⊢ <;> simp [hv]

/-- A wrapped method that returns normally. -/
def normalMeth : Bool → Except Unit ℚ × Bool :=
  fun b => (Except.ok 7, b)

/-- Witness for C5 (amended): applied to a normally returning method
starting in training mode, the wrapper returns the value and restores
training mode. -/
theorem c5_eval_mode_scoped_restore_witness :
    eval_mode normalMeth true = (Except.ok 7, true) :=
  (c5_eval_mode_scoped_restore normalMeth true).2.1 7 rfl

/-- C8: `BijectiveAutoEncoder.sample(batch_size, batches)` ignores the
`batches` argument entirely and always returns one decoded batch whose
leading dimension is `batch_size`. -/
theorem c8_sample_ignores_batches (m : BijectiveAutoEncoder) (ρ : ℕ → ℚ)
    (batch_size batches batches' : ℕ) :
    m.sample ρ batch_size batches = m.sample ρ batch_size batches' ∧
    (m.sample ρ batch_size batches).length = batch_size := by
  refine ⟨rfl, ?_⟩
  simp [BijectiveAutoEncoder.sample, priorSample]

/-- Embeds `LitBoltzmannGenerator.__init__` (`lit_models.py`): prior, target
(a callable log-density) and flow. -/
structure LitBoltzmannGenerator where
  prior : Distribution
  target : TargetDistribution
  flow : DensityTransform

/-- Embeds `LitBoltzmannGenerator.forward(batch)`: `x, log_prob_prior = batch`;
`y, log_det_jacob = self.flow(x)`; `log_prob_target = self.target(y)`;
returns `(y, log_prob_target - log_prob_prior + log_det_jacob)`. -/
def LitBoltzmannGenerator.forward (g : LitBoltzmannGenerator)
    (batch : List ℚ × List ℚ) : List ℚ × List ℚ :=
  let x := batch.1
  let log_prob_prior := batch.2
  let y := x.map fun t => (g.flow.fwd t).1
  let log_det_jacob := x.map fun t => (g.flow.fwd t).2
  let log_prob_target := y.map g.target.logProb
  (y, List.zipWith (fun a b => a + b)
        (List.zipWith (fun a b => a - b) log_prob_target log_prob_prior)
        log_det_jacob)

/-- C9: with the same prior, flow and target, `LitBoltzmannGenerator.forward`
on the batch `(x, prior.log_prob(x))` returns exactly the pair that
`BoltzmannGenerator.forward(x)` returns: the expressions
`log_prob_target - log_prob_prior + log_det_jacob` and
`log_prob_target - (log_prob_prior - log_det_jacob)` agree. -/
theorem c9_lit_forward_refines_boltzmann_forward (prior : Distribution)
    (target : TargetDistribution) (flow : DensityTransform) (x : List ℚ) :
    LitBoltzmannGenerator.forward ⟨prior, target, flow⟩
        (x, x.map prior.logProb) =
      BoltzmannGenerator.forward ⟨flow, prior, target⟩ x := by
  rw [boltzmann_forward_eq_map]
  unfold LitBoltzmannGenerator.forward
  simp only [List.map_map, Function.comp_def, zipWith_map_same]

/-- A raised Python exception: its class name and its message.  The
apostrophes Python puts around names in messages are omitted. -/
structure PyError where
  kind : String
  msg : String
deriving DecidableEq

/-- The AttributeError Python raises when `self.<attr>` is read before the
attribute exists (message as printed by CPython, quotes omitted):
`AttributeError: BoltzmannGenerator object has no attribute <attr>`. -/
def attributeError (attr : String) : PyError :=
  ⟨"AttributeError", "BoltzmannGenerator object has no attribute " ++ attr⟩

/-- The corrective exception raised by `_prior_as_dataloader`:
`Exception: First, run configure_training`. -/
def correctiveError : PyError :=
  ⟨"Exception", "First, run configure_training"⟩

/-- Reading `self.<attr>`: returns the value if the attribute was set,
otherwise raises AttributeError. -/
def pyGetAttr (attr : String) (o : Option ℕ) : Except PyError ℕ :=
  match o with
  | some v => Except.ok v
  | none => Except.error (attributeError attr)

/-- Python `a or b` on an optional positive-int argument: `None` (and the
falsy `0`) yield the default. -/
def pyOr (o : Option ℕ) (default : ℕ) : ℕ :=
  match o with
  | some v => if v = 0 then default else v
  | none => default

/-- Embeds `torchnf.utils.distribution.IterableDistribution(prior, batch_size,
epoch_length)` as returned by `_prior_as_dataloader`. -/
structure IterableDistribution where
  prior : Distribution
  batch_size : ℕ
  epoch_length : ℕ

/-- The mutable attributes of a `BoltzmannGenerator` that
`configure_training` sets (`None` models an attribute that does not yet
exist), together with the prior the dataloaders wrap. -/
structure BoltzmannGeneratorState where
  prior : Distribution
  batch_size : Option ℕ
  epoch_length : Option ℕ
  val_batch_size : Option ℕ
  val_epoch_length : Option ℕ
  test_batch_size : Option ℕ
  test_epoch_length : Option ℕ

/-- Embeds `BoltzmannGenerator.configure_training`: sets `batch_size` and
`epoch_length`, and sets each optional field to
`<given value> or <training default>` (Python `or`). -/
def BoltzmannGeneratorState.configure_training (m : BoltzmannGeneratorState)
    (batch_size epoch_length : ℕ)
    (val_batch_size val_epoch_length test_batch_size test_epoch_length :
      Option ℕ) : BoltzmannGeneratorState :=
  { m with
    batch_size := some batch_size
    epoch_length := some epoch_length
    val_batch_size := some (pyOr val_batch_size batch_size)
    val_epoch_length := some (pyOr val_epoch_length epoch_length)
    test_batch_size := some (pyOr test_batch_size batch_size)
    test_epoch_length := some (pyOr test_epoch_length epoch_length) }

/-- Embeds `BoltzmannGenerator._prior_as_dataloader(batch_size, epoch_length)`:
raises the corrective exception when the `batch_size` attribute is absent,
else returns `IterableDistribution(self.prior, batch_size, epoch_length)`. -/
def BoltzmannGeneratorState.prior_as_dataloader (m : BoltzmannGeneratorState)
    (batch_size epoch_length : ℕ) : Except PyError IterableDistribution :=
  if m.batch_size.isSome then
    Except.ok ⟨m.prior, batch_size, epoch_length⟩
  else
    Except.error correctiveError

/-- Embeds `BoltzmannGenerator.train_dataloader`: evaluates the call arguments
`self.batch_size` and `self.epoch_length` (raising AttributeError if they
are absent) before `_prior_as_dataloader` can run its guard. -/
def BoltzmannGeneratorState.train_dataloader (m : BoltzmannGeneratorState) :
    Except PyError IterableDistribution := do
  let bs ← pyGetAttr "batch_size" m.batch_size
  let el ← pyGetAttr "epoch_length" m.epoch_length
  m.prior_as_dataloader bs el

/-- Embeds `BoltzmannGenerator.val_dataloader`: same, reading `self.val_batch_size`
and `self.val_epoch_length` as call arguments. -/
def BoltzmannGeneratorState.val_dataloader (m : BoltzmannGeneratorState) :
    Except PyError IterableDistribution := do
  let bs ← pyGetAttr "val_batch_size" m.val_batch_size
  let el ← pyGetAttr "val_epoch_length" m.val_epoch_length
  m.prior_as_dataloader bs el

/-- Embeds `BoltzmannGenerator.test_dataloader`: same, reading
`self.test_batch_size` and `self.test_epoch_length`. -/
def BoltzmannGeneratorState.test_dataloader (m : BoltzmannGeneratorState) :
    Except PyError IterableDistribution := do
  let bs ← pyGetAttr "test_batch_size" m.test_batch_size
  let el ← pyGetAttr "test_epoch_length" m.test_epoch_length
  m.prior_as_dataloader bs el

/-- A freshly constructed `BoltzmannGenerator`: `configure_training` has
not run, so none of the six attributes exist. -/
def bgFresh : BoltzmannGeneratorState :=
  ⟨priorEx, none, none, none, none, none, none⟩

/-- C6 (documenting the code bug): before `configure_training`, the three
dataloader methods raise an AttributeError naming the missing attribute —
not the corrective `First, run configure_training` exception, which is
unreachable from them because the attribute reads occur while evaluating
the call arguments of `_prior_as_dataloader`; after `configure_training`,
each dataloader succeeds with the configured batch size and epoch length. -/
theorem c6_dataloader_before_configure_training :
    bgFresh.train_dataloader = Except.error (attributeError "batch_size") ∧
    bgFresh.val_dataloader = Except.error (attributeError "val_batch_size") ∧
    bgFresh.test_dataloader
        = Except.error (attributeError "test_batch_size") ∧
    attributeError "batch_size" ≠ correctiveError ∧
    attributeError "val_batch_size" ≠ correctiveError ∧
    attributeError "test_batch_size" ≠ correctiveError ∧
    (bgFresh.configure_training 32 100 none none none none).train_dataloader
        = Except.ok ⟨priorEx, 32, 100⟩ ∧
    (bgFresh.configure_training 32 100 none none none none).val_dataloader
        = Except.ok ⟨priorEx, 32, 100⟩ ∧
    (bgFresh.configure_training 32 100 none none none none).test_dataloader
        = Except.ok ⟨priorEx, 32, 100⟩ := by
  refine ⟨rfl, rfl, rfl, ?_, ?_, ?_, rfl, rfl, rfl⟩ <;> decide

/-- C10: when any of the four optional arguments of `configure_training`
is `None` (omitted), the corresponding attribute defaults to the training
`batch_size` / `epoch_length`, and the validation and test dataloaders
then use the training batch configuration. -/
theorem c10_configure_training_defaults (m : BoltzmannGeneratorState)
    (batch_size epoch_length : ℕ)
    (val_batch_size val_epoch_length test_batch_size test_epoch_length :
      Option ℕ) :
    (val_batch_size = none →
      (m.configure_training batch_size epoch_length val_batch_size
          val_epoch_length test_batch_size
          test_epoch_length).val_batch_size = some batch_size) ∧
    (val_epoch_length = none →
      (m.configure_training batch_size epoch_length val_batch_size
          val_epoch_length test_batch_size
          test_epoch_length).val_epoch_length = some epoch_length) ∧
    (test_batch_size = none →
      (m.configure_training batch_size epoch_length val_batch_size
          val_epoch_length test_batch_size
          test_epoch_length).test_batch_size = some batch_size) ∧
    (test_epoch_length = none →
      (m.configure_training batch_size epoch_length val_batch_size
          val_epoch_length test_batch_size
          test_epoch_length).test_epoch_length = some epoch_length) ∧
    (m.configure_training batch_size epoch_length none none none
        none).val_dataloader
      = Except.ok ⟨m.prior, batch_size, epoch_length⟩ ∧
    (m.configure_training batch_size epoch_length none none none
        none).test_dataloader
      = Except.ok ⟨m.prior, batch_size, epoch_length⟩ := by
  refine ⟨?_, ?_, ?_, ?_, rfl, rfl⟩ <;>
    rintro rfl <;> rfl

/-- Witness for C10: with all optional arguments omitted, the validation
fields take the training values and the validation dataloader uses them. -/
theorem c10_configure_training_defaults_witness :
    ((bgFresh.configure_training 8 50 none none none none).val_batch_size
        = some 8) ∧
    ((bgFresh.configure_training 8 50 none none none none).val_dataloader
        = Except.ok ⟨priorEx, 8, 50⟩) :=
  ⟨(c10_configure_training_defaults bgFresh 8 50 none none none none).1 rfl,
   (c10_configure_training_defaults bgFresh 8 50 none none none
      none).2.2.2.2.1⟩

/-- C7: if the flow satisfies the invertibility invariant
(`inverse(forward(x)) == x` and
`forward_log_det(x) == -inverse_log_det(forward(x))`), then decoding the
latent returned by `encode(x)` returns `x` exactly, with a log-likelihood
equal to the one `encode(x)` returned. -/
theorem c7_encode_decode_roundtrip (flow : DensityTransform)
    (prior : Distribution) (x : List ℚ)
    (hinv : ∀ t, (flow.inv (flow.fwd t).1).1 = t)
    (hdet : ∀ t, (flow.fwd t).2 = -(flow.inv (flow.fwd t).1).2) :
    (BijectiveAutoEncoder.mk flow prior true).decode
        ((BijectiveAutoEncoder.mk flow prior true).encode x).1 =
      (x, ((BijectiveAutoEncoder.mk flow prior true).encode x).2) := by
  unfold BijectiveAutoEncoder.decode BijectiveAutoEncoder.encode
  simp only [BijectiveAutoEncoder.decodeFn, BijectiveAutoEncoder.encodeFn,
    if_pos, List.map_map, Function.comp_def, zipWith_map_same]
  refine Prod.ext ?_ ?_
  · calc (x.map fun t => (flow.inv (flow.fwd t).1).1) = x.map id :=
          List.map_congr_left fun t _ => hinv t
      _ = x := List.map_id x
  · refine List.map_congr_left fun t _ => ?_
    rw [hdet t]
    ring

/-- Witness for C7: a concrete shift flow with constant log-det-Jacobian
satisfies the invariant, and the round-trip holds on the batch `[5]`. -/
theorem c7_encode_decode_roundtrip_witness :
    (BijectiveAutoEncoder.mk flowEx priorEx true).decode
        ((BijectiveAutoEncoder.mk flowEx priorEx true).encode [5]).1 =
      ([5], ((BijectiveAutoEncoder.mk flowEx priorEx true).encode [5]).2) :=
  c7_encode_decode_roundtrip flowEx priorEx [5]
    (fun t => by simp [flowEx])
    (fun t => by simp [flowEx])

/-- Modelled from the spec: the MetropolisResampler (`mcmc_sample`) is
described in §4.2 of the spec but its implementation is not among the
source files under verification.  One accept/reject step: for a chain at
`curr = (y_curr, logw_curr)` and a fresh proposal `prop = (y', logw')`
with uniform draw `u`, accept (transition to the proposal) iff
`log(u) < logw' - logw_curr`, otherwise remain at the current state. -/
noncomputable def metropolisStep (curr prop : ℝ × ℝ) (u : ℝ) : ℝ × ℝ :=
  if Real.log u < prop.2 - curr.2 then prop else curr

/-- Modelled from the spec: the sequential accept/reject scan — the new
current state becomes the next chain element regardless of accept/reject,
so a rejection repeats the previous state in the chain. -/
noncomputable def metropolisScan (curr : ℝ × ℝ) :
    List ((ℝ × ℝ) × ℝ) → List (ℝ × ℝ)
  | [] => []
  | (prop, u) :: rest =>
      let next := metropolisStep curr prop u
      next :: metropolisScan next rest

/-- Modelled from the spec: the full chain over a sequence of i.i.d.
proposals `(y, logw)` with one uniform draw per transition; with no
external `init_state`, the first proposal seeds the chain (auto-accepted)
and each later proposal is accepted or rejected in order. -/
noncomputable def mcmc_chain (proposals : List (ℝ × ℝ)) (us : List ℝ) :
    List (ℝ × ℝ) :=
  match proposals with
  | [] => []
  | p :: rest => p :: metropolisScan p (rest.zip us)

/-- C3: on the fixed log-weight sequence `[0, -1, 2, -1/2]` (proposal `i`
carrying state value `i` replaced here by its weight as state label, as in
the spec's test) with fixed uniform draws `[9/10, 1/20, 99/100]`, the
accept/reject rule `log(u) < logw' - logw_curr` rejects, accepts, rejects,
yielding the chain `[0, 0, 2, 2]` of states and the same log-weights. -/
theorem c3_metropolis_fixed_chain :
    mcmc_chain [(0, 0), (1, -1), (2, 2), (3, -(1/2))]
        [9/10, 1/20, 99/100] =
      [(0, 0), (0, 0), (2, 2), (2, 2)] := by
  have hexp1 : (2 : ℝ) ≤ Real.exp 1 := by
    linarith [Real.add_one_le_exp (1 : ℝ)]
  have hexp2 : (3 : ℝ) ≤ Real.exp 2 := by
    linarith [Real.add_one_le_exp (2 : ℝ)]
  have hexp52 : (7 / 2 : ℝ) ≤ Real.exp (5 / 2) := by
    linarith [Real.add_one_le_exp (5 / 2 : ℝ)]
  have h1 : ¬ Real.log ((9 : ℝ) / 10) < -1 - 0 := by
    rw [not_lt, sub_zero, Real.le_log_iff_exp_le (by norm_num)]
    rw [Real.exp_neg]
    have hpos : (0 : ℝ) < Real.exp 1 := Real.exp_pos 1
    have hmul : (Real.exp 1)⁻¹ * Real.exp 1 = 1 :=
      inv_mul_cancel₀ (ne_of_gt hpos)
    nlinarith [inv_pos.mpr hpos]
  have h2 : Real.log ((1 : ℝ) / 20) < 2 - 0 := by
    rw [sub_zero, Real.log_lt_iff_lt_exp (by norm_num)]
    linarith
  have h3 : ¬ Real.log ((99 : ℝ) / 100) < -(1 / 2) - 2 := by
    rw [not_lt]
    have : (-(1 / 2) - 2 : ℝ) = -(5 / 2) := by norm_num
    rw [this, Real.le_log_iff_exp_le (by norm_num), Real.exp_neg]
    have hpos : (0 : ℝ) < Real.exp (5 / 2) := Real.exp_pos _
    have hmul : (Real.exp (5 / 2))⁻¹ * Real.exp (5 / 2) = 1 :=
      inv_mul_cancel₀ (ne_of_gt hpos)
    nlinarith [inv_pos.mpr hpos]
  simp only [mcmc_chain, List.zip, List.zipWith, metropolisScan,
    metropolisStep]
  rw [if_neg h1, if_pos h2, if_neg h3]
